import Mathlib

/-!
Verification of the pairing-and-trust-establishment subsystem of pyHAVector.

The definitions below are a shallow embedding of the source:
* `src/anki_vector/functions.py`: `async_get_cert`, `save_cert`,
  `validate_cert_name`, `user_authentication`, `write_config`;
* `src/pyHAVector/utils.py`: `read_configuration`.

File-system effects are modelled by explicit state passing: the credential
store (`sdk_config.ini`, its `-temp` sibling and its `-error` sibling)
becomes the structure `FS`; a certificate directory becomes an association
list of file names.  Fallible Python code (raised exceptions) becomes
`Except` values; the exceptions actually raised by the source are all the
generic builtin `Exception` (respectively `VectorConfigurationException`),
so the error payload records the message/raise-site rather than a class
hierarchy the source does not have.
-/

namespace PyHAVector

/-- Association-list lookup, modelling string-keyed dictionary lookup
(configparser sections, directory listings).  Returns the first binding. -/
def alookup {β : Type} : List (String × β) → String → Option β
  | [], _ => none
  | (k, v) :: t, s => if k = s then some v else alookup t s

/-- In-place update of every entry carrying the given key
(modelling mutation of a configparser section that stays in place). -/
def amap {β : Type} : List (String × β) → String → (β → β) → List (String × β)
  | [], _, _ => []
  | (k, v) :: t, s, f => (k, if k = s then f v else v) :: amap t s f

/-- Removal of all entries carrying the given key
(modelling `ConfigParser.remove_section`). -/
def aremove {β : Type} : List (String × β) → String → List (String × β)
  | [], _ => []
  | (k, v) :: t, s => if k = s then aremove t s else (k, v) :: aremove t s

/-- One section of `sdk_config.ini`: the four optional keys written by
`write_config` (`cert`, `ip`, `name`, `guid`). -/
structure Record where
  cert : Option String
  ip : Option String
  name : Option String
  guid : Option String
deriving DecidableEq, Repr

/-- The record with no keys set (a freshly cleared section). -/
def Record.empty : Record := ⟨none, none, none, none⟩

/-- The parsed credential store: the configparser's sections in file order,
one per device serial. -/
abbrev Store := List (String × Record)

/-- Python truthiness of the optional string/bytes arguments of
`write_config` (`if cert_file:` etc.): present and non-empty. -/
def truthyS : Option String → Bool
  | some s => s != ""
  | none => false

/-- `config[serial] = {}` in `write_config`: `ConfigParser.__setitem__`
removes the section and re-adds it (empty) at the end. -/
def setSection (st : Store) (s : String) (r : Record) : Store :=
  aremove st s ++ [(s, r)]

/-- `config[serial][key] = value`: `config[serial]` raises `KeyError` when
the section is absent, otherwise the section is mutated in place. -/
def setKey (st : Store) (s : String) (f : Record → Record) : Except Unit Store :=
  match alookup st s with
  | some _ => Except.ok (amap st s f)
  | none => Except.error ()

/-- One `if <field>: config[serial][<key>] = <field>` step of
`write_config`, threading an already-raised `KeyError` through. -/
def applyField (s : String) (v : Option String) (f : Record → Record) :
    Except Unit Store → Except Unit Store
  | Except.error e => Except.error e
  | Except.ok st => if truthyS v then setKey st s f else Except.ok st

/-- Lines 182-191 of `functions.py`: the optional clear of the section
followed by the four guarded field assignments, in source order
(`cert`, `ip`, `name`, `guid`; the `guid` argument stands for the
already `utf-8`-decoded bytes value). -/
def applyFields (st : Store) (serial : String)
    (cert_file ip name guid : Option String) (clear : Bool) : Except Unit Store :=
  let st0 := if clear then setSection st serial Record.empty else st
  applyField serial guid (fun r => { r with guid := guid })
    (applyField serial name (fun r => { r with name := name })
      (applyField serial ip (fun r => { r with ip := ip })
        (applyField serial cert_file (fun r => { r with cert := cert_file })
          (Except.ok st0))))

/-- Combined effect of the four guarded assignments on the target section:
each supplied (truthy) field overwrites, each absent field is left alone. -/
def setRec (cert_file ip name guid : Option String) (r : Record) : Record :=
  ⟨if truthyS cert_file then cert_file else r.cert,
   if truthyS ip then ip else r.ip,
   if truthyS name then name else r.name,
   if truthyS guid then guid else r.guid⟩

/-- Content of a store file on disk: either a well-formed INI store or a
half-written file left by an interrupted `config.write`. -/
inductive FileData where
  | ini (st : Store)
  | torn
deriving DecidableEq, Repr

/-- A file on disk: its parsed content and its permission mode. -/
structure FileEntry where
  data : FileData
  mode : Nat
deriving DecidableEq, Repr

/-- The on-disk state touched by `write_config`: `sdk_config.ini`
(`primary`), `sdk_config.ini-temp` (`temp`) and `sdk_config.ini-error`
(`errFile`); `none` means the path does not exist. -/
structure FS where
  primary : Option FileEntry
  temp : Option FileEntry
  errFile : Option FileEntry
deriving DecidableEq, Repr

/-- Result of one `write_config` call: the final file-system state and
whether the call returned normally (`ok = false` means it raised). -/
structure WCResult where
  fs : FS
  ok : Bool
deriving DecidableEq, Repr

/-- Lines 177-181 of `functions.py`: `config.read(config_file)` inside
`try`.  A missing file reads as an empty store; a file that raises
`configparser.ParsingError` is renamed aside to `sdk_config.ini-error`
(overwriting any previous `-error` file) and the parser is left empty.
The `-temp` file is never consulted here. -/
def readPrimary (fs : FS) : Store × FS :=
  match fs.primary with
  | some e =>
    match e.data with
    | FileData.ini st => (st, fs)
    | FileData.torn => ([], { fs with primary := none, errFile := some e })
  | none => ([], fs)

/-- Lines 169-204 of `functions.py` (`write_config`), as a transition on
`FS`.  `writeOk` models whether `config.write(f)` succeeds; the fresh store
file is created by `os.open(..., os.O_WRONLY | os.O_CREAT, 0o600)` at a
path that was just renamed away (or never existed), hence mode `0o600`.
On a write failure the partially written primary is `torn` unless the
`-temp` file exists, in which case it is renamed back over the primary. -/
def write_config (fs : FS) (serial : String)
    (cert_file ip name guid : Option String) (clear : Bool) (writeOk : Bool) :
    WCResult :=
  let p := readPrimary fs
  match applyFields p.1 serial cert_file ip name guid clear with
  | Except.error _ => ⟨p.2, false⟩
  | Except.ok newSt =>
    let fs2 : FS :=
      match p.2.primary with
      | some e => { p.2 with primary := none, temp := some e }
      | none => p.2
    if writeOk then
      ⟨{ fs2 with primary := some ⟨FileData.ini newSt, 0o600⟩, temp := none }, true⟩
    else
      match fs2.temp with
      | some e => ⟨{ fs2 with primary := some e, temp := none }, false⟩
      | none => ⟨{ fs2 with primary := some ⟨FileData.torn, 0o600⟩ }, false⟩

/-- Default value of the `clear` parameter in the Python signature
`def write_config(serial, cert_file=None, ip=None, name=None, guid=None, clear=True)`. -/
def write_config_clear_default : Bool := true

/-- A `write_config` call that omits the `clear` argument, so the Python
default applies. -/
def write_config_defaults (fs : FS) (serial : String)
    (cert_file ip name guid : Option String) (writeOk : Bool) : WCResult :=
  write_config fs serial cert_file ip name guid write_config_clear_default writeOk

/-- A file inside the certificate directory: raw byte content and
permission mode. -/
structure DirFile where
  content : List Nat
  mode : Nat
deriving DecidableEq, Repr

/-- The certificate directory as a listing of file names. -/
abbrev Dir := List (String × DirFile)

/-- Lines 77-84 of `functions.py` (`save_cert`).  `os.makedirs(...,
exist_ok=True)` materialises a missing directory as empty; the file is
opened with `os.O_WRONLY | os.O_CREAT` and mode `0o600`: a fresh file is
created with mode `0o600`, an existing file keeps its mode and is
overwritten from offset 0 without truncation, so old bytes beyond the new
length survive.  Returns the updated directory and the path
`<anki_dir>/<name>-<serial>.cert`. -/
def save_cert (anki_dir : String) (dir : Option Dir) (cert : List Nat)
    (name serial : String) : Dir × String :=
  let files : Dir := dir.getD []
  let fname := name ++ "-" ++ serial ++ ".cert"
  let cert_file := anki_dir ++ "/" ++ fname
  match alookup files fname with
  | some _ => (amap files fname (fun g => ⟨cert ++ g.content.drop cert.length, g.mode⟩), cert_file)
  | none => (files ++ [(fname, ⟨cert, 0o600⟩)], cert_file)

/-- One attribute of the certificate subject, as the Python loop sees it:
`str(fields.oid)` (e.g. `"<ObjectIdentifier(oid=2.5.4.3, name=commonName)>"`)
and `fields.value`. -/
structure CertAttr where
  oidStr : String
  value : String
deriving DecidableEq, Repr

/-- Whether `needle` occurs at the head of `hay`. -/
def leadMatch : List Char → List Char → Bool
  | _, [] => true
  | [], _ :: _ => false
  | a :: as, b :: bs => a == b && leadMatch as bs

/-- Python substring containment `needle in hay`. -/
def strHas : List Char → List Char → Bool
  | [], needle => leadMatch [] needle
  | a :: t, needle => leadMatch (a :: t) needle || strHas t needle

/-- The `"commonName" in str(fields.oid)` test of `validate_cert_name`. -/
def isCNField (a : CertAttr) : Bool :=
  strHas a.oidStr.data "commonName".data

/-- Lines 87-101 of `functions.py` (`validate_cert_name`) applied to the
parsed subject attribute list: walk the subject in order and raise on the
first common-name attribute whose value differs from `robot_name`;
attributes that are not common names are skipped, and a subject with no
common-name attribute falls through silently. -/
def validate_cert_name : List CertAttr → String → Except String Unit
  | [], _ => Except.ok ()
  | a :: rest, robot_name =>
    if isCNField a && a.value != robot_name then
      Except.error ("The name of the certificate (" ++ a.value ++
        ") does not match the name provided (" ++ robot_name ++
        ").\nPlease verify the name, and try again.")
    else validate_cert_name rest robot_name

/-- Whether an `Except` computation raised. -/
def isErr {ε α : Type} : Except ε α → Bool
  | Except.error _ => true
  | Except.ok _ => false

/-- An HTTP response as `async_get_cert` observes it: status code and body
bytes. -/
structure HttpResponse where
  status : Nat
  body : List Nat
deriving DecidableEq, Repr

/-- Lines 63-74 of `functions.py` (`async_get_cert`): the GET response for
the given serial is accepted only on status 200, and any other status
raises `Exception("Could not get Vector certificate")` - a fixed message
mentioning neither the serial nor the status. -/
def async_get_cert (serial : String) (res : HttpResponse) : Except String (List Nat) :=
  if res.status != 200 then Except.error "Could not get Vector certificate"
  else
    let _ := serial
    Except.ok res.body

/-- A raised Python exception as `user_authentication` produces it: its
class name, its message, and the `from err` chained cause (as a string). -/
structure PyExc where
  excClass : String
  msg : String
  cause : Option String
deriving DecidableEq, Repr

/-- Outcome of the `interface.UserAuthentication(request)` RPC: either a
response message carrying the status `code` and `client_token_guid`, or a
`grpc.RpcError` transport failure. -/
inductive RpcOutcome where
  | response (code : Nat) (client_token_guid : String)
  | transportError (err : String)
deriving DecidableEq, Repr

/-- Value of `messaging.protocol.UserAuthenticationResponse.AUTHORIZED` in
the generated protobuf enum (`UNAUTHORIZED = 0`, `AUTHORIZED = 1`); the
source only ever compares `response.code` against it. -/
def AUTHORIZED : Nat := 1

/-- Lines 119-166 of `functions.py` (`user_authentication`).
`channelReady` models whether `grpc.channel_ready_future(channel).result
(timeout=15)` returned within the deadline; on timeout the source raises
`Exception` chained from the `grpc.FutureTimeoutError`.  A transport-level
`grpc.RpcError` is caught and re-raised as `Exception` whose message is
the literal source string (the `'\x7berr\x7d'` is not an f-string in the
source, so it appears verbatim) chained `from err`; a response whose code
is not `AUTHORIZED` raises a plain `Exception` with no cause.  All three
raise sites use the builtin `Exception` class. -/
def user_authentication (channelReady : Bool) (rpc : RpcOutcome) : Except PyExc String :=
  if channelReady = false then
    Except.error ⟨"Exception",
      "\nUnable to connect to Vector\nPlease be sure to connect via the Vector companion app first, and connect your computer to the same network as your Vector.",
      some "grpc.FutureTimeoutError"⟩
  else
    match rpc with
    | RpcOutcome.transportError err =>
      Except.error ⟨"Exception",
        "\nFailed to authorize request:\nAn unknown error occurred \x27\x7berr\x7d\x27",
        some err⟩
    | RpcOutcome.response code guid =>
      if code != AUTHORIZED then
        Except.error ⟨"Exception",
          "\nFailed to authorize request:\nPlease be sure to first set up Vector using the companion app.",
          none⟩
      else Except.ok guid

/-- Class of the exception carried by a failed `user_authentication`. -/
def errClassOf : Except PyExc String → Option String
  | Except.error e => some e.excClass
  | Except.ok _ => none

/-- The raise sites of `read_configuration` in `src/pyHAVector/utils.py`
(all of them raise `VectorConfigurationException`; the constructors record
which message is raised): `noConfigFile` is the `"Could not find the sdk
configuration file"` raise on an empty section list, `multipleRobots` is
the `"Found multiple robot serial numbers"` raise (the ambiguous case),
`serialNotFound` and `nameNotFound` are the two lookup failures. -/
inductive VErr where
  | noConfigFile
  | multipleRobots
  | serialNotFound
  | nameNotFound
deriving DecidableEq, Repr

/-- The dict comprehension `{k.lower(): v for k, v in parser.items()}`:
section names lowercased, records kept. -/
def lowerStore (st : Store) : Store :=
  st.map (fun p => (p.1.toLower, p.2))

/-- The inner loop of the name branch: whether any value of the section
equals `n` exactly or case-insensitively. -/
def recordMatchesName (r : Record) (n : String) : Bool :=
  ([r.cert, r.ip, r.name, r.guid].filterMap id).any
    (fun v => v == n || v.toLower == n.toLower)

/-- The `for keySerial in config` scan of the name branch: first section
one of whose values matches the name. -/
def nameScan : Store → String → Except VErr Record
  | [], _ => Except.error VErr.nameNotFound
  | (_, r) :: t, n => if recordMatchesName r n then Except.ok r else nameScan t n

/-- Lines 137-195 of `utils.py` (`read_configuration`), applied to the
parsed store (a missing `config.ini` parses as the empty store).  Empty
section list raises the missing-configuration error; with neither serial
nor name given, a unique section is selected and two or more sections
raise the multiple-robots error; a given serial is looked up lowercased
against lowercased section names; otherwise the sections are scanned for a
value matching `name` (the `name = none` fallthrough of the final branch
is unreachable because the neither-given case was resolved above). -/
def read_configuration (serial name : Option String) (st : Store) : Except VErr Record :=
  match st with
  | [] => Except.error VErr.noConfigFile
  | (s0, r0) :: rest =>
    let serialStep : Except VErr (Option String) :=
      if serial.isNone && name.isNone then
        if rest.isEmpty then Except.ok (some s0) else Except.error VErr.multipleRobots
      else Except.ok serial
    match serialStep with
    | Except.error e => Except.error e
    | Except.ok serialR =>
      let config := lowerStore ((s0, r0) :: rest)
      match serialR with
      | some s =>
        match alookup config s.toLower with
        | some r => Except.ok r
        | none => Except.error VErr.serialNotFound
      | none =>
        match name with
        | some n => nameScan config n
        | none => Except.error VErr.nameNotFound

/-- A certificate subject holding a single attribute that is not a common
name (an organizationName), as the Python loop would see it after parsing
a PEM certificate whose subject has no CN component. -/
def sampleSubjectNoCN : List CertAttr :=
  [⟨"<ObjectIdentifier(oid=2.5.4.10, name=organizationName)>", "Anki"⟩]

/-- Store state after a simulated crash between the temp-rename and the
final write of a previous `write_config` call: `sdk_config.ini` is absent
and only `sdk_config.ini-temp` holds the previously stored record. -/
def orphanTempFS : FS :=
  ⟨none,
   some ⟨FileData.ini [("00908e7e",
     ⟨some "/home/user/.anki_vector/Vector-A6S1-00908e7e.cert",
      some "192.168.1.223", some "Vector-A6S1", some "abc123"⟩)], 0o600⟩,
   none⟩

/-- A one-record prior store used by concrete witnesses. -/
def priorStoreOne : Store :=
  [("00908e7e", ⟨some "/certs/Vector-A6S1-00908e7e.cert", some "192.168.1.223",
    some "Vector-A6S1", some "oldguid"⟩)]

/-- File-system state whose primary store file holds `priorStoreOne`. -/
def fsPriorOne : FS := ⟨some ⟨FileData.ini priorStoreOne, 0o600⟩, none, none⟩

/-! ### Association-list lemmas -/

theorem alookup_amap {β : Type} (l : List (String × β)) (s : String) (f : β → β)
    (k : String) :
    alookup (amap l s f) k = if k = s then Option.map f (alookup l k) else alookup l k := by
  induction l with
  | nil => simp [amap, alookup]
  | cons hd tl ih =>
    obtain ⟨a, b⟩ := hd
    by_cases has : a = s
    · subst has
      by_cases hks : k = a
      · subst hks
        simp [amap, alookup, ih]
      · simp [amap, alookup, hks, ih, Ne.symm hks]
    · by_cases hka : a = k
      · subst hka
        simp [amap, alookup, has, Ne.symm has]
      · simp [amap, alookup, has, hka, ih]

theorem alookup_aremove_self {β : Type} (l : List (String × β)) (s : String) :
    alookup (aremove l s) s = none := by
  induction l with
  | nil => simp [aremove, alookup]
  | cons hd tl ih =>
    obtain ⟨a, b⟩ := hd
    by_cases has : a = s
    · simp [aremove, has, ih]
    · simp [aremove, alookup, has, ih]

theorem alookup_aremove_ne {β : Type} (l : List (String × β)) (s k : String)
    (hk : k ≠ s) : alookup (aremove l s) k = alookup l k := by
  induction l with
  | nil => simp [aremove]
  | cons hd tl ih =>
    obtain ⟨a, b⟩ := hd
    by_cases has : a = s
    · subst has
      simp [aremove, alookup, Ne.symm hk, ih]
    · simp [aremove, alookup, has, ih]

theorem alookup_append {β : Type} (l1 l2 : List (String × β)) (k : String) :
    alookup (l1 ++ l2) k =
      match alookup l1 k with
      | some v => some v
      | none => alookup l2 k := by
  induction l1 with
  | nil => simp [alookup]
  | cons hd tl ih =>
    obtain ⟨a, b⟩ := hd
    by_cases hak : a = k
    · simp [alookup, hak]
    · simp [alookup, hak, ih]

theorem amap_aremove_self {β : Type} (l : List (String × β)) (s : String) (f : β → β) :
    amap (aremove l s) s f = aremove l s := by
  induction l with
  | nil => simp [aremove, amap]
  | cons hd tl ih =>
    obtain ⟨a, b⟩ := hd
    by_cases has : a = s
    · simp [aremove, has, ih]
    · simp [aremove, amap, has, ih]

theorem amap_append {β : Type} (l1 l2 : List (String × β)) (s : String) (f : β → β) :
    amap (l1 ++ l2) s f = amap l1 s f ++ amap l2 s f := by
  induction l1 with
  | nil => simp [amap]
  | cons hd tl ih =>
    obtain ⟨a, b⟩ := hd
    simp [amap, ih]

theorem amap_amap_self {β : Type} (l : List (String × β)) (s : String) (f g : β → β) :
    amap (amap l s f) s g = amap l s (fun v => g (f v)) := by
  induction l with
  | nil => simp [amap]
  | cons hd tl ih =>
    obtain ⟨a, b⟩ := hd
    by_cases has : a = s
    · simp [amap, has, ih]
    · simp [amap, has, ih]

theorem alookup_setSection_self (st : Store) (s : String) (r : Record) :
    alookup (setSection st s r) s = some r := by
  rw [setSection, alookup_append, alookup_aremove_self]
  simp [alookup]

theorem alookup_setSection_ne (st : Store) (s : String) (r : Record) (k : String)
    (hk : k ≠ s) : alookup (setSection st s r) k = alookup st k := by
  rw [setSection, alookup_append, alookup_aremove_ne st s k hk]
  cases h : alookup st k with
  | none => simp [alookup, Ne.symm hk]
  | some v => simp

theorem amap_id {β : Type} (l : List (String × β)) (s : String) :
    amap l s (fun v => v) = l := by
  induction l with
  | nil => simp [amap]
  | cons hd tl ih =>
    obtain ⟨a, b⟩ := hd
    simp [amap, ih]

theorem amap_congrF {β : Type} (l : List (String × β)) (s : String) {f g : β → β}
    (h : ∀ v, f v = g v) : amap l s f = amap l s g := by
  induction l with
  | nil => simp [amap]
  | cons hd tl ih =>
    obtain ⟨a, b⟩ := hd
    simp [amap, h, ih]

/-! ### Normal form of the field-merging phase of `write_config` -/

/-- The four guarded assignments of `write_config`, collapsed: they raise
`KeyError` exactly when some field is supplied and the target section is
absent, and otherwise overwrite the supplied fields of the section in
place. -/
theorem applyFields_eq (st : Store) (serial : String) (c i n g : Option String)
    (clear : Bool) :
    applyFields st serial c i n g clear =
      (let st0 := if clear then setSection st serial Record.empty else st
       if (truthyS c || truthyS i || truthyS n || truthyS g) && (alookup st0 serial).isNone
       then Except.error ()
       else Except.ok (amap st0 serial (setRec c i n g))) := by
  rw [applyFields]
  generalize (if clear then setSection st serial Record.empty else st) = st0
  cases hc : truthyS c <;> cases hi : truthyS i <;> cases hn : truthyS n <;>
    cases hg : truthyS g <;>
    cases hl : alookup st0 serial <;>
    simp [applyField, setKey, setRec, hc, hi, hn, hg, hl, alookup_amap,
      amap_amap_self, amap_id] <;>
    first
    | exact (amap_congrF st0 serial
        (fun v => by simp [setRec, hc, hi, hn, hg])).symm
    | exact (Eq.trans
        (amap_congrF st0 serial (fun v => by simp [setRec, hc, hi, hn, hg]))
        (amap_id st0 serial)).symm

theorem setRec_idem (c i n g : Option String) (r : Record) :
    setRec c i n g (setRec c i n g r) = setRec c i n g r := by
  cases hc : truthyS c <;> cases hi : truthyS i <;> cases hn : truthyS n <;>
    cases hg : truthyS g <;> simp [setRec, hc, hi, hn, hg]

/-- Re-applying the same field set with `clear = false` to a store it has
already been applied to changes nothing. -/
theorem applyFields_false_idem (st st2 : Store) (serial : String)
    (c i n g : Option String)
    (h : applyFields st serial c i n g false = Except.ok st2) :
    applyFields st2 serial c i n g false = Except.ok st2 := by
  rw [applyFields_eq] at h ⊢
  simp only [if_neg Bool.false_ne_true] at h ⊢
  by_cases hflag : (truthyS c || truthyS i || truthyS n || truthyS g) = true
  · cases hl : alookup st serial with
    | none => rw [hl] at h; simp [hflag] at h
    | some r =>
      rw [hl] at h
      simp [hflag] at h
      subst h
      have hl2 : alookup (amap st serial (setRec c i n g)) serial =
          some (setRec c i n g r) := by
        rw [alookup_amap]; simp [hl]
      rw [hl2]
      simp [hflag, amap_amap_self]
      exact amap_congrF st serial (fun v => setRec_idem c i n g v)
  · simp only [Bool.not_eq_true] at hflag
    rw [hflag] at h ⊢
    simp at h
    subst h
    simp [amap_amap_self]
    exact amap_congrF st serial (fun v => setRec_idem c i n g v)

/-! ### Claim theorems -/

/-- C1 (counterexample): the claim says a certificate whose subject has no
common-name field fails `validate_cert_name` (it is "never silently
accepted").  On `sampleSubjectNoCN`, a subject with no common-name
attribute at all (so in particular no common-name attribute equals the
expected name `"Vector-A6S1"`), the source succeeds silently. -/
theorem validate_cert_name_noCN_accepted :
    sampleSubjectNoCN.all (fun a => !isCNField a) = true ∧
    validate_cert_name sampleSubjectNoCN "Vector-A6S1" = Except.ok () := by
  exact ⟨rfl, rfl⟩

/-- C1 (amended): `validate_cert_name` fails if and only if some
common-name field of the subject differs from `robot_name`; hence a
certificate with no common-name field is silently accepted, and a subject
is accepted exactly when every common-name field equals `robot_name` -
not when at least one does. -/
theorem validate_cert_name_error_iff (subject : List CertAttr) (robot_name : String) :
    isErr (validate_cert_name subject robot_name) =
      subject.any (fun a => isCNField a && a.value != robot_name) := by
  induction subject with
  | nil => rfl
  | cons a rest ih =>
    cases h : (isCNField a && a.value != robot_name) with
    | true => simp [validate_cert_name, h, isErr]
    | false =>
      simp [validate_cert_name, h]
      exact ih

/-- C6 (counterexample): the claim says `read_configuration none none`
over a store with zero records fails with `AmbiguousConfigError` (the
"Found multiple robot serial numbers" raise, `VErr.multipleRobots`).  It
actually fails with the missing-configuration-file error, a different
raise site. -/
theorem read_configuration_empty_store_not_ambiguous :
    read_configuration none none ([] : Store) = Except.error VErr.noConfigFile ∧
    VErr.noConfigFile ≠ VErr.multipleRobots := by
  exact ⟨rfl, by decide⟩

/-- C6 (amended): `read_configuration` with neither serial nor name
returns the unique record when the store has exactly one record, fails
with the multiple-robots (ambiguous) error when it has two or more, and
fails with the missing-configuration-file error (not the ambiguous one)
when it has zero. -/
theorem read_configuration_no_args (k : String) (r : Record) (e2 : String × Record)
    (rest : Store) :
    read_configuration none none ([] : Store) = Except.error VErr.noConfigFile ∧
    read_configuration none none [(k, r)] = Except.ok r ∧
    read_configuration none none ((k, r) :: e2 :: rest)
      = Except.error VErr.multipleRobots := by
  refine ⟨rfl, ?_, ?_⟩
  · simp [read_configuration, lowerStore, alookup]
  · obtain ⟨k2, r2⟩ := e2
    simp [read_configuration]

/-- C7 (counterexample): the claim says `save_cert` fully replaces an
existing file's content ("create-or-truncate semantics, leaving no stale
trailing bytes").  The source opens with `O_WRONLY | O_CREAT` and no
`O_TRUNC`: writing the 1-byte certificate `[9]` over the 3-byte file
`[1, 2, 3]` leaves `[9, 2, 3]`, not `[9]`. -/
theorem save_cert_stale_bytes :
    save_cert "/home/user/.anki_vector"
        (some [("Vector-A6S1-00908e7e.cert", ⟨[1, 2, 3], 0o600⟩)]) [9]
        "Vector-A6S1" "00908e7e"
      = ([("Vector-A6S1-00908e7e.cert", ⟨[9, 2, 3], 0o600⟩)],
         "/home/user/.anki_vector/Vector-A6S1-00908e7e.cert") ∧
    ([9, 2, 3] : List Nat) ≠ [9] := by
  exact ⟨rfl, by decide⟩

/-- C7 (amended): `save_cert` creates the directory if absent and returns
the path `<anki_dir>/<name>-<serial>.cert`; a fresh file is created with
mode `0o600` holding exactly `cert`; an existing file keeps its previous
mode and is overwritten from offset 0 without truncation, so previous
bytes beyond the new length remain. -/
theorem save_cert_behavior (anki_dir : String) (d : Option Dir) (cert : List Nat)
    (name serial : String) :
    (save_cert anki_dir d cert name serial).2
        = anki_dir ++ "/" ++ (name ++ "-" ++ serial ++ ".cert") ∧
    (match alookup (d.getD []) (name ++ "-" ++ serial ++ ".cert") with
     | none => alookup (save_cert anki_dir d cert name serial).1
         (name ++ "-" ++ serial ++ ".cert") = some ⟨cert, 0o600⟩
     | some f => alookup (save_cert anki_dir d cert name serial).1
         (name ++ "-" ++ serial ++ ".cert")
         = some ⟨cert ++ f.content.drop cert.length, f.mode⟩) := by
  cases h : alookup (d.getD []) (name ++ "-" ++ serial ++ ".cert") with
  | none =>
    refine ⟨by simp [save_cert, h], ?_⟩
    simp only [h]
    simp [save_cert, h, alookup_append, alookup]
  | some f =>
    refine ⟨by simp [save_cert, h], ?_⟩
    simp only [h]
    simp [save_cert, h, alookup_amap]

/-- C8 (counterexample): the claim says a non-200 status fails with an
error carrying the requested serial and the status/cause.  The source
raises a fixed-message exception: two fetches with different serials and
different non-200 statuses produce the identical error value, so the
error carries neither the serial nor the status. -/
theorem async_get_cert_fixed_error :
    async_get_cert "00908e7e" ⟨404, []⟩ = async_get_cert "ffffffff" ⟨500, [1]⟩ ∧
    async_get_cert "00908e7e" ⟨404, []⟩
      = Except.error "Could not get Vector certificate" := by
  exact ⟨rfl, rfl⟩

/-- C8 (amended): `async_get_cert` returns the response body exactly when
the status is 200, and for any other status fails with the fixed message
"Could not get Vector certificate" that carries neither the serial nor
the status. -/
theorem async_get_cert_eq (serial : String) (res : HttpResponse) :
    async_get_cert serial res =
      if res.status = 200 then Except.ok res.body
      else Except.error "Could not get Vector certificate" := by
  by_cases h : res.status = 200 <;> simp [async_get_cert, h]

/-- C9 (counterexample): the claim says denial and RPC-transport failure
are never conflated into the same error kind (a distinct
`AuthorizationRpcError` for the latter).  Both raise sites of the source
use the builtin `Exception` class: a denied response (`code = 0`) and a
transport failure produce errors of the identical class. -/
theorem user_authentication_conflated_error_class :
    errClassOf (user_authentication true (RpcOutcome.response 0 "guid"))
      = some "Exception" ∧
    errClassOf (user_authentication true (RpcOutcome.transportError "connection reset"))
      = some "Exception" := by
  exact ⟨rfl, rfl⟩

/-- C9 (amended): `user_authentication` returns `client_token_guid` when
the response code is `AUTHORIZED`; any other code raises a generic
`Exception` with a setup-guidance message and no chained cause; an
RPC-transport failure raises a generic `Exception` of the same class with
a different (unknown-error) message and the underlying cause chained.
The two failure cases share the exception class and are distinguished
only by message and cause. -/
theorem user_authentication_outcomes (code : Nat) (guid err : String) :
    user_authentication true (RpcOutcome.response code guid) =
      (if code = AUTHORIZED then Except.ok guid
       else Except.error ⟨"Exception",
         "\nFailed to authorize request:\nPlease be sure to first set up Vector using the companion app.",
         none⟩) ∧
    user_authentication true (RpcOutcome.transportError err) =
      Except.error ⟨"Exception",
        "\nFailed to authorize request:\nAn unknown error occurred \x27\x7berr\x7d\x27",
        some err⟩ := by
  refine ⟨?_, rfl⟩
  by_cases h : code = AUTHORIZED <;> simp [user_authentication, h]

/-- C2 (code evaluated at the failing input): with the store existing only
as the `-temp` file (`orphanTempFS`), a subsequent `write_config` for a
different serial does not restore the temp file: it reads only the absent
primary path (an empty store), writes a store holding just the new serial,
and deletes the orphan temp file - the previously stored `00908e7e`
record is lost. -/
theorem write_config_orphan_temp_data_loss :
    write_config orphanTempFS "11111111" none (some "10.0.0.9") none none true true
      = ⟨⟨some ⟨FileData.ini [("11111111", ⟨none, some "10.0.0.9", none, none⟩)], 0o600⟩,
          none, none⟩, true⟩ ∧
    alookup [("11111111", (⟨none, some "10.0.0.9", none, none⟩ : Record))] "00908e7e"
      = none := by
  exact ⟨rfl, rfl⟩

/-- C3: when the primary store file exists with content `st` and the
field-merging phase succeeds with new content `newSt`, `write_config`
follows the write-temp-then-swap discipline: on a successful write the
original path holds the new full content with mode `0o600` and the
temporary file has been removed; on a failing write the temporary file
has been renamed back to the original path (which therefore holds the
prior content with its prior mode), the temporary file is gone, and the
call reports the error (`ok = false`). -/
theorem write_config_temp_swap (fs : FS) (st newSt : Store) (m : Nat) (serial : String)
    (c i n g : Option String) (clear : Bool)
    (h1 : fs.primary = some ⟨FileData.ini st, m⟩)
    (h2 : applyFields st serial c i n g clear = Except.ok newSt) :
    write_config fs serial c i n g clear true
        = ⟨⟨some ⟨FileData.ini newSt, 0o600⟩, none, fs.errFile⟩, true⟩ ∧
    write_config fs serial c i n g clear false
        = ⟨⟨some ⟨FileData.ini st, m⟩, none, fs.errFile⟩, false⟩ := by
  obtain ⟨p, t, e⟩ := fs
  simp only at h1
  subst h1
  constructor <;> simp [write_config, readPrimary, h2]

/-- Witness for C3 at a concrete input: an existing empty store, a clear
call with no fields. -/
theorem write_config_temp_swap_witness :
    write_config ⟨some ⟨FileData.ini [], 0o600⟩, none, none⟩ "00908e7e"
        none none none none true true
      = ⟨⟨some ⟨FileData.ini [("00908e7e", Record.empty)], 0o600⟩, none, none⟩, true⟩ ∧
    write_config ⟨some ⟨FileData.ini [], 0o600⟩, none, none⟩ "00908e7e"
        none none none none true false
      = ⟨⟨some ⟨FileData.ini [], 0o600⟩, none, none⟩, false⟩ :=
  write_config_temp_swap ⟨some ⟨FileData.ini [], 0o600⟩, none, none⟩ []
    [("00908e7e", Record.empty)] 0o600 "00908e7e" none none none none true rfl rfl

/-- With `clear = true` and a readable primary store, `write_config`
always succeeds in the merging phase and writes the cleared-then-updated
store. -/
theorem write_config_clear_true_eq (fs : FS) (st : Store) (m : Nat) (serial : String)
    (c i n g : Option String) (h1 : fs.primary = some ⟨FileData.ini st, m⟩) :
    write_config fs serial c i n g true true
      = ⟨⟨some ⟨FileData.ini
            (amap (setSection st serial Record.empty) serial (setRec c i n g)),
          0o600⟩, none, fs.errFile⟩, true⟩ := by
  obtain ⟨p, t, e⟩ := fs
  simp only at h1
  subst h1
  have hap : applyFields st serial c i n g true
      = Except.ok (amap (setSection st serial Record.empty) serial (setRec c i n g)) := by
    rw [applyFields_eq]
    simp [alookup_setSection_self]
  simp [write_config, readPrimary, hap]

/-- C4: for every readable prior store state and serial, a call
`write_config(serial, guid := g, clear := true)` (with non-empty `g`,
since an empty guid is falsy and would be skipped) leaves the stored
record for `serial` holding only the guid `g` - prior `cert`, `ip` and
`name` values are removed - while records of all other serials are
unchanged. -/
theorem write_config_clear_guid (fs : FS) (st : Store) (m : Nat) (serial g : String)
    (h1 : fs.primary = some ⟨FileData.ini st, m⟩) (h2 : g ≠ "") :
    ∃ st2 : Store,
      write_config fs serial none none none (some g) true true
          = ⟨⟨some ⟨FileData.ini st2, 0o600⟩, none, fs.errFile⟩, true⟩ ∧
      alookup st2 serial = some ⟨none, none, none, some g⟩ ∧
      ∀ k : String, k ≠ serial → alookup st2 k = alookup st k := by
  refine ⟨amap (setSection st serial Record.empty) serial (setRec none none none (some g)),
    write_config_clear_true_eq fs st m serial none none none (some g) h1, ?_, ?_⟩
  · rw [alookup_amap]
    simp [alookup_setSection_self, setRec, truthyS, Record.empty, bne_iff_ne, h2]
  · intro k hk
    rw [alookup_amap]
    simp [hk, alookup_setSection_ne st serial Record.empty k hk]

/-- Witness for C4 at a concrete input: a store whose record for
`00908e7e` has all four fields set, updated with only `guid = "abc123"`. -/
theorem write_config_clear_guid_witness :
    ("abc123" : String) ≠ "" ∧
    (∃ st2 : Store,
      write_config fsPriorOne "00908e7e" none none none (some "abc123") true true
          = ⟨⟨some ⟨FileData.ini st2, 0o600⟩, none, none⟩, true⟩ ∧
      alookup st2 "00908e7e" = some ⟨none, none, none, some "abc123"⟩ ∧
      ∀ k : String, k ≠ "00908e7e" → alookup st2 k = alookup priorStoreOne k) :=
  ⟨by decide, write_config_clear_guid fsPriorOne priorStoreOne 0o600 "00908e7e" "abc123"
    rfl (by decide)⟩

/-- C5: `write_config` with `clear = false` is idempotent: re-applying the
same field set (any combination of supplied fields, including the failing
missing-section case) to the state produced by a first application leaves
the entire store file state unchanged - in particular the stored record
is the same after two applications as after one. -/
theorem write_config_idempotent (fs : FS) (serial : String) (c i n g : Option String) :
    (write_config (write_config fs serial c i n g false true).fs
        serial c i n g false true).fs
      = (write_config fs serial c i n g false true).fs := by
  obtain ⟨p, t, e⟩ := fs
  cases p with
  | none =>
    cases h : applyFields [] serial c i n g false with
    | error u => simp [write_config, readPrimary, h]
    | ok st2 =>
      simp [write_config, readPrimary, h, applyFields_false_idem [] st2 serial c i n g h]
  | some entry =>
    obtain ⟨d, m⟩ := entry
    cases d with
    | ini st =>
      cases h : applyFields st serial c i n g false with
      | error u => simp [write_config, readPrimary, h]
      | ok st2 =>
        simp [write_config, readPrimary, h, applyFields_false_idem st st2 serial c i n g h]
    | torn =>
      cases h : applyFields [] serial c i n g false with
      | error u => simp [write_config, readPrimary, h]
      | ok st2 =>
        simp [write_config, readPrimary, h, applyFields_false_idem [] st2 serial c i n g h]

/-- C10: the `clear` parameter of `write_config` defaults to `true`, so a
call that omits it (`write_config_defaults`) first resets the serial's
record to empty and then applies only the supplied fields: the resulting
record is exactly `setRec c i n g Record.empty` (supplied fields present,
everything not re-supplied erased), and records of other serials are
unchanged; incremental merging requires passing `clear = false`
explicitly. -/
theorem write_config_defaults_erase (fs : FS) (st : Store) (m : Nat) (serial : String)
    (c i n g : Option String) (h1 : fs.primary = some ⟨FileData.ini st, m⟩) :
    write_config_clear_default = true ∧
    ∃ st2 : Store,
      write_config_defaults fs serial c i n g true
          = ⟨⟨some ⟨FileData.ini st2, 0o600⟩, none, fs.errFile⟩, true⟩ ∧
      alookup st2 serial = some (setRec c i n g Record.empty) ∧
      ∀ k : String, k ≠ serial → alookup st2 k = alookup st k := by
  refine ⟨rfl, amap (setSection st serial Record.empty) serial (setRec c i n g),
    write_config_clear_true_eq fs st m serial c i n g h1, ?_, ?_⟩
  · rw [alookup_amap]
    simp [alookup_setSection_self]
  · intro k hk
    rw [alookup_amap]
    simp [hk, alookup_setSection_ne st serial Record.empty k hk]

/-- Witness for C10 at a concrete input: the default-`clear` call with
only `ip` supplied erases the prior `cert`, `name` and `guid` of the
record. -/
theorem write_config_defaults_erase_witness :
    write_config_clear_default = true ∧
    ∃ st2 : Store,
      write_config_defaults fsPriorOne "00908e7e" none (some "10.0.0.2") none none true
          = ⟨⟨some ⟨FileData.ini st2, 0o600⟩, none, none⟩, true⟩ ∧
      alookup st2 "00908e7e"
        = some (setRec none (some "10.0.0.2") none none Record.empty) ∧
      ∀ k : String, k ≠ "00908e7e" → alookup st2 k = alookup priorStoreOne k :=
  write_config_defaults_erase fsPriorOne priorStoreOne 0o600 "00908e7e"
    none (some "10.0.0.2") none none rfl

end PyHAVector
